import Mathlib

/-!
Shallow embedding of the task-orchestration and browser-automation core of
the xhs-toolkit repository, together with theorems checking the
natural-language specification against it.

Each definition is translated from a named Python function of the source
tree; the source file and symbol are given in the doc comment.
-/

set_option linter.unusedVariables false

/-- Values stored in the small result dictionaries the pipeline attaches to a
task (`result=...` arguments of `TaskManager.update_task` in
src/server/mcp_server.py). Only booleans and strings occur there. -/
inductive RVal where
  | bool (b : Bool)
  | str (s : String)
  deriving DecidableEq, Repr

/-- A Python dict of result data, modelled as an association list. Python
truthiness of a dict (used by `update_task`) is emptiness of this list. -/
abbrev Rdict := List (String × RVal)

/-- Lookup of a key in a result dict (first binding wins, as in a dict). -/
def Rdict.get (d : Rdict) (k : String) : Option RVal :=
  match d with
  | [] => none
  | (k', v) :: rest => if k' = k then some v else Rdict.get rest k

/-- The note payload of a publish job (src/xiaohongshu/models.py, `XHSNote`,
restricted to the fields the task manager and pipeline consult). -/
structure XHSNote where
  title : String
  content : String
  images : List String
  videos : List String
  topics : List String
  deriving DecidableEq, Repr

/-- One tracked publish job (src/server/mcp_server.py, dataclass
`PublishTask`). Timestamps are modelled as natural-number ticks. -/
structure PublishTask where
  task_id : String
  status : String
  note : XHSNote
  progress : Nat
  message : String
  result : Option Rdict
  start_time : Nat
  end_time : Option Nat
  deriving DecidableEq, Repr

/-- The task store of `TaskManager` (src/server/mcp_server.py): the
`self.tasks` dict, modelled as an association list from task id to task. -/
abbrev TaskStore := List (String × PublishTask)

/-- Dict lookup `self.tasks.get(task_id)` (`TaskManager.get_task`). -/
def get_task (ts : TaskStore) (task_id : String) : Option PublishTask :=
  match ts with
  | [] => none
  | (k, t) :: rest => if k = task_id then some t else get_task rest task_id

/-- Replace the binding of `task_id` (in-place mutation of the stored task
object in Python; a no-op when the id is absent). -/
def setTask (ts : TaskStore) (task_id : String) (t : PublishTask) : TaskStore :=
  match ts with
  | [] => []
  | (k, t') :: rest =>
      if k = task_id then (k, t) :: rest else (k, t') :: setTask rest task_id t

/-- Field-by-field body of `TaskManager.update_task` applied to one task
(src/server/mcp_server.py lines 82-96). Python truthiness is modelled
exactly: `if status:` and `if message:` skip `None` and the empty string,
`if result:` skips `None` and the empty dict, while
`if progress is not None:` only skips `None`; a terminal `status` argument
(`"completed"` or `"failed"`) stamps `end_time` with the current time. -/
def applyUpdate (t : PublishTask) (status : Option String) (progress : Option Nat)
    (message : Option String) (result : Option Rdict) (now : Nat) : PublishTask :=
  let t1 := match status with
    | some s => if s = "" then t else { t with status := s }
    | none => t
  let t2 := match progress with
    | some p => { t1 with progress := p }
    | none => t1
  let t3 := match message with
    | some m => if m = "" then t2 else { t2 with message := m }
    | none => t2
  let t4 := match result with
    | some r => if r = [] then t3 else { t3 with result := some r }
    | none => t3
  if status = some "completed" ∨ status = some "failed" then
    { t4 with end_time := some now }
  else t4

/-- `TaskManager.update_task` (src/server/mcp_server.py lines 82-96): a
partial update of the stored task, a no-op when the id is unknown. -/
def update_task (ts : TaskStore) (task_id : String) (status : Option String)
    (progress : Option Nat) (message : Option String) (result : Option Rdict)
    (now : Nat) : TaskStore :=
  match get_task ts task_id with
  | none => ts
  | some t => setTask ts task_id (applyUpdate t status progress message result now)

/-- `TaskManager.create_task` (src/server/mcp_server.py lines 63-76): store a
fresh pending task with progress 0 under the given id. -/
def create_task (ts : TaskStore) (task_id : String) (note : XHSNote) (now : Nat) :
    TaskStore :=
  ts ++ [(task_id, { task_id := task_id, status := "pending", note := note,
                     progress := 0, message := "任务已创建，准备开始",
                     result := none, start_time := now, end_time := none })]

/-- Decidable equality for `Except`, needed to evaluate the pipeline model on
concrete environments. -/
def exceptEqDec {ε α : Type} [DecidableEq ε] [DecidableEq α] :
    DecidableEq (Except ε α) := fun x y =>
  match x, y with
  | .ok a, .ok b =>
      if h : a = b then .isTrue (by rw [h]) else .isFalse (by simp [h])
  | .error a, .error b =>
      if h : a = b then .isTrue (by rw [h]) else .isFalse (by simp [h])
  | .ok _, .error _ => .isFalse (by simp)
  | .error _, .ok _ => .isFalse (by simp)

instance {ε α : Type} [DecidableEq ε] [DecidableEq α] : DecidableEq (Except ε α) :=
  exceptEqDec

/-- One call to `TaskManager.update_task`: the argument tuple
(status, progress, message, result), each `none` when omitted. -/
structure UpdateCall where
  status : Option String
  progress : Option Nat
  message : Option String
  result : Option Rdict
  deriving DecidableEq, Repr

/-- A stage-entry update of the pipeline: status, progress and message
supplied, result omitted. -/
def stageUpd (s : String) (p : Nat) (m : String) : UpdateCall :=
  ⟨some s, some p, some m, none⟩

/-- A failure update of the pipeline: status `"failed"`, progress 0, a
message and a structured result dict. -/
def failUpd (m : String) (r : Rdict) : UpdateCall :=
  ⟨some "failed", some 0, some m, some r⟩

/-- The result of `XHSClient._submit_note`
(src/xiaohongshu/models.py `XHSPublishResult`): success flag, message, and
its `to_dict()` payload. -/
structure SubmitRes where
  success : Bool
  message : String
  dict : Rdict
  deriving DecidableEq, Repr

/-- Environment of one `MCPServer._execute_publish_task` run
(src/server/mcp_server.py lines 1009-1283): the outcome of every fallible
operation the pipeline performs, `Except.error` meaning the Python call
raised. `cookieRecordCount` is the number of credential records inside the
cookie file; the quick pre-flight never reads the file content, only its
existence. -/
structure PipelineEnv where
  taskFound : Bool
  note : XHSNote
  cookies_file_exists : Except String Bool
  cookieRecordCount : Nat
  create_driver : Except String Unit
  navigate_to_creator_center : Except String Unit
  load_cookies : Except String Unit
  page_get : Except String Unit
  urlHasPublish : Bool
  switch_publish_mode : Except String Unit
  handle_file_upload : Except String Unit
  wait_for_video_upload : Except String Unit
  fill_note_content : Except String Unit
  submit_note : Except String SubmitRes
  deriving DecidableEq

/-- Outcome of one pipeline run: the sequence of `update_task` calls it
issued, and whether it reached the `create_driver` call (i.e. whether a
browser session was started for the job). -/
structure ExecOutcome where
  updates : List UpdateCall
  driverCreateAttempted : Bool
  deriving DecidableEq, Repr

/-- Stage-entry update literals of `_execute_publish_task`, in pipeline
order. -/
def updValidating : UpdateCall := stageUpd "validating" 5 "正在快速验证登录状态..."

/-- Stage-entry update issued after the pre-flight login check passes. -/
def updInit10 : UpdateCall :=
  stageUpd "initializing" 10 "✅ 登录状态验证通过，正在初始化浏览器..."

/-- Stage-entry update of stage 1 (browser-driver initialization). -/
def updInit15 : UpdateCall := stageUpd "initializing" 15 "正在初始化浏览器驱动..."

/-- Stage-entry update of stage 2 (browser start). -/
def updBrowser20 : UpdateCall := stageUpd "browser_starting" 20 "正在启动浏览器..."

/-- Update issued before navigating to the creator center. -/
def updNavigating25 : UpdateCall :=
  stageUpd "navigating" 25 "正在导航到小红书创作者中心..."

/-- Update issued before loading the persisted cookies. -/
def updLoading30 : UpdateCall := stageUpd "loading_cookies" 30 "正在加载登录状态..."

/-- Stage-entry update of stage 3 (publish-page access). -/
def updAccess35 : UpdateCall :=
  stageUpd "accessing_publish_page" 35 "正在访问发布页面..."

/-- Stage-entry update of stage 4 (publish-mode switch). -/
def updSwitch40 : UpdateCall := stageUpd "switching_mode" 40 "正在切换发布模式..."

/-- Stage-entry update of stage 5 (file upload). -/
def updUploading50 : UpdateCall := stageUpd "uploading" 50 "正在上传文件..."

/-- Await-upload update for the image branch of stage 5. -/
def updWaitImg60 : UpdateCall :=
  stageUpd "waiting_upload" 60 "正在等待图片上传完成..."

/-- Await-upload update for the video branch of stage 5. -/
def updWaitVid60 : UpdateCall :=
  stageUpd "waiting_upload" 60 "正在等待视频上传完成..."

/-- Stage-entry update of stage 6 (content fill). -/
def updFilling70 : UpdateCall := stageUpd "filling_content" 70 "正在填写笔记内容..."

/-- Stage-entry update of stage 7 (submit). -/
def updPublishing80 : UpdateCall := stageUpd "publishing" 80 "正在提交发布..."

/-- The terminal update of a successful run. -/
def updCompleted (r : Rdict) : UpdateCall :=
  ⟨some "completed", some 100, some "🎉 发布成功！", some r⟩

/-- The failure update of the stage-0 `except` branch (an exception during
the quick login check). -/
def validationFailUpd (e : String) : UpdateCall :=
  failUpd ("❌ 登录状态验证出错: " ++ e)
    [("success", .bool false), ("error_type", .str "validation_error"),
     ("error", .str e), ("suggested_action", .str "请重新登录小红书后重试")]

/-- The failure update issued when the cookies file does not exist. -/
def authFailUpd : UpdateCall :=
  failUpd "❌ 未找到登录cookies，请先登录小红书"
    [("success", .bool false), ("error_type", .str "auth_required"),
     ("user_action_required", .str "需要登录小红书"),
     ("suggested_command", .str "请对AI说：\x27登录小红书\x27")]

/-- The failure update of the browser-initialization `except` branch. -/
def browserFailUpd (e : String) : UpdateCall :=
  failUpd ("❌ 浏览器初始化失败: " ++ e)
    [("success", .bool false), ("error_type", .str "browser_init_error"),
     ("error", .str e), ("suggested_action", .str "请检查浏览器配置或重新登录")]

/-- The failure update of the publish-page-access `except` branch. -/
def pageFailUpd (e : String) : UpdateCall :=
  failUpd ("❌ 访问发布页面失败: " ++ e)
    [("success", .bool false), ("error_type", .str "page_access_error"),
     ("error", .str e), ("suggested_action", .str "请重新登录小红书")]

/-- The failure update of the content-fill `except` branch. -/
def contentFailUpd (e : String) : UpdateCall :=
  failUpd ("❌ 填写内容失败: " ++ e)
    [("success", .bool false), ("error_type", .str "content_fill_error"),
     ("error", .str e), ("suggested_action", .str "请检查内容格式")]

/-- The failure update of the submit `except` branch. -/
def submitFailUpd (e : String) : UpdateCall :=
  failUpd ("❌ 提交发布失败: " ++ e)
    [("success", .bool false), ("error_type", .str "submit_error"),
     ("error", .str e), ("suggested_action", .str "请检查网络连接和登录状态")]

/-- `MCPServer._execute_publish_task` (src/server/mcp_server.py lines
1009-1283), as a function from the run environment to the sequence of
`update_task` calls it issues. Faithful points to note against the source:
the stage-0 pre-flight checks only that the cookies file exists; exceptions
of the mode-switch block (stage 4) and of the file-upload/await-upload block
(stage 5) are caught, logged as warnings, and execution continues (in
particular `wait_for_video_upload`'s outcome has no observable effect);
exceptions of stages 0, 2, 3, 6 and 7 issue a failure update with
progress 0 and end the run. -/
def executePublishTask (env : PipelineEnv) : ExecOutcome :=
  if env.taskFound = false then ⟨[], false⟩ else
  match env.cookies_file_exists with
  | .error e => ⟨[updValidating, validationFailUpd e], false⟩
  | .ok fileExists =>
  if fileExists = false then ⟨[updValidating, authFailUpd], false⟩ else
  let pre := [updValidating, updInit10, updInit15, updBrowser20]
  match env.create_driver with
  | .error e => ⟨pre ++ [browserFailUpd e], true⟩
  | .ok _ =>
  let pre := pre ++ [updNavigating25]
  match env.navigate_to_creator_center with
  | .error e => ⟨pre ++ [browserFailUpd e], true⟩
  | .ok _ =>
  let pre := pre ++ [updLoading30]
  match env.load_cookies with
  | .error e => ⟨pre ++ [browserFailUpd e], true⟩
  | .ok _ =>
  let pre := pre ++ [updAccess35]
  match env.page_get with
  | .error e => ⟨pre ++ [pageFailUpd e], true⟩
  | .ok _ =>
  if env.urlHasPublish = false then
    ⟨pre ++ [pageFailUpd "无法访问发布页面，可能需要重新登录"], true⟩
  else
  let pre := pre ++ [updSwitch40]
  let uploadBlock :=
    if env.note.images.isEmpty && env.note.videos.isEmpty then ([] : List UpdateCall)
    else
      updUploading50 ::
      (match env.handle_file_upload with
       | .error _ => []
       | .ok _ =>
         if env.note.videos.isEmpty then [updWaitImg60] else [updWaitVid60])
  let pre := pre ++ uploadBlock ++ [updFilling70]
  match env.fill_note_content with
  | .error e => ⟨pre ++ [contentFailUpd e], true⟩
  | .ok _ =>
  let pre := pre ++ [updPublishing80]
  match env.submit_note with
  | .error e => ⟨pre ++ [submitFailUpd e], true⟩
  | .ok r =>
    if r.success then ⟨pre ++ [updCompleted r.dict], true⟩
    else ⟨pre ++ [failUpd ("❌ 发布失败: " ++ r.message) r.dict], true⟩

/-- One persisted credential record (name plus optional expiry epoch), the
fields `CookieManager.validate_cookies` consults. -/
structure Cookie where
  name : String
  expiry : Option Nat
  deriving DecidableEq, Repr

/-- `CRITICAL_CREATOR_COOKIES` (src/xiaohongshu/models.py lines 228-233). -/
def CRITICAL_CREATOR_COOKIES : List String :=
  ["web_session", "a1", "gid", "webId",
   "customer-sso-sid", "x-user-id-creator.xiaohongshu.com",
   "access-token-creator.xiaohongshu.com", "galaxy_creator_session_id",
   "galaxy.creator.beaker.session.id"]

/-- The `must_have_cookies` list inside `CookieManager.validate_cookies`
(src/auth/cookie_manager.py lines 745-747). -/
def must_have_cookies : List String :=
  ["a1", "webId", "galaxy_creator_session_id",
   "galaxy.creator.beaker.session.id", "gid"]

/-- The `found_cookies` accumulation of `validate_cookies`: names of loaded
records that belong to `CRITICAL_CREATOR_COOKIES`. -/
def foundCriticalNames (cookies : List Cookie) : List String :=
  (cookies.filter (fun c => c.name ∈ CRITICAL_CREATOR_COOKIES)).map (fun c => c.name)

/-- The `missing` set of `validate_cookies`:
`set(must_have_cookies) - set(found_cookies)`. `must_have_cookies` has no
duplicate entries, so the filtered list has the set's cardinality. -/
def missingMustHave (cookies : List Cookie) : List String :=
  must_have_cookies.filter (fun n => n ∉ foundCriticalNames cookies)

/-- The per-record expiry test of `validate_cookies`:
`if expiry and expiry < current_time` — Python truthiness also rejects a
zero expiry. -/
def cookieExpired (c : Cookie) (now : Nat) : Bool :=
  match c.expiry with
  | some e => decide (e ≠ 0) && decide (e < now)
  | none => false

/-- The `expired_critical_cookies` accumulation of `validate_cookies`:
expired records whose name is in `CRITICAL_CREATOR_COOKIES`. -/
def expiredCriticalCookies (cookies : List Cookie) (now : Nat) : List String :=
  ((cookies.filter (fun c => cookieExpired c now)).filter
      (fun c => c.name ∈ CRITICAL_CREATOR_COOKIES)).map (fun c => c.name)

/-- Final verdict of `CookieManager.validate_cookies`
(src/auth/cookie_manager.py lines 744-784) over an already loaded record
list: valid iff no critical-list record is expired and at most two
`must_have_cookies` names are absent. -/
def validate_cookies (cookies : List Cookie) (now : Nat) : Bool :=
  decide ((expiredCriticalCookies cookies now).length = 0) &&
    decide ((missingMustHave cookies).length ≤ 2)

/-- One polling tick of `CookieManager._wait_for_login_completion`
(src/auth/cookie_manager.py lines 246-326): the outcomes of the page samples
that tick takes, `Except.error` meaning the sample raised. `final_url_read`
is the re-read of the URL performed inside the success branch (it sits in
the outer `try`, so an exception there also ends the wait). -/
structure LoginTick where
  current_url : Except String String
  still_on_login_page : Except String Bool
  on_creator_center : Except String Bool
  final_url_read : Except String String
  is_error_page : Except String Bool
  deriving DecidableEq

/-- `CookieManager._wait_for_login_completion` (src/auth/cookie_manager.py
lines 246-326) over the list of remaining polling ticks (an empty list is
the timeout case). Faithful points: an exception while reading the URL
(outer `try`) returns `False` at once; an exception in the login-page check
is logged and the tick falls through to the creator-center check; an
exception in the creator-center check returns `False` at once ("由于检查出错，
终止登录检测"); an exception in the error-page check is logged and polling
continues. There is no counter of consecutive probe failures anywhere in
the function. -/
def wait_for_login_completion (ticks : List LoginTick) : Bool :=
  match ticks with
  | [] => false
  | t :: rest =>
    match t.current_url with
    | .error _ => false
    | .ok _ =>
      match t.still_on_login_page with
      | .ok true => wait_for_login_completion rest
      | _ =>
        match t.on_creator_center with
        | .error _ => false
        | .ok true =>
            (match t.final_url_read with
             | .error _ => false
             | .ok _ => true)
        | .ok false =>
            match t.is_error_page with
            | .ok true => false
            | _ => wait_for_login_completion rest

/-- The two upload kinds of `XHSFileUploader` (`file_type` of
`_wait_for_upload_completion`). -/
inductive FileKind where
  | image
  | video
  deriving DecidableEq, Repr

/-- `XHSConfig.FILE_UPLOAD_TIME` (src/xiaohongshu/constants.py line 71). -/
def FILE_UPLOAD_TIME : Nat := 60

/-- `XHSConfig.VIDEO_PROCESSING_TIME` (src/xiaohongshu/constants.py
line 72). -/
def VIDEO_PROCESSING_TIME : Nat := 120

/-- The `max_wait_time` chosen by `_wait_for_upload_completion`. -/
def uploadMaxWait : FileKind → Nat
  | .video => VIDEO_PROCESSING_TIME
  | .image => FILE_UPLOAD_TIME

/-- The `check_interval` chosen by `_wait_for_upload_completion`. -/
def uploadCheckInterval : FileKind → Nat
  | .video => 5
  | .image => 2

/-- Number of iterations of the polling loop of
`_wait_for_upload_completion`: `waited_time` runs 0, interval, … while
`waited_time < max_wait_time` (both ceilings divide evenly). -/
def uploadLoopIters (k : FileKind) : Nat := uploadMaxWait k / uploadCheckInterval k

/-- What one polling probe of `_wait_for_upload_completion` sees: which
markers are currently displayed. -/
structure UploadObs where
  successShown : Bool
  errorShown : Bool
  videoCompleteShown : Bool
  videoProcessingShown : Bool
  deriving DecidableEq, Repr

/-- The polling loop of `XHSFileUploader._wait_for_upload_completion`
(src/xiaohongshu/components/file_uploader.py lines 187-262): probe `i`
happens after `i` check intervals; a displayed success marker returns
success, a displayed error marker returns failure, a displayed
video-complete marker returns success for video uploads, a probe exception
is logged and the loop continues. `none` means the ceiling elapsed with no
early return; the pair's second component is the elapsed wait in seconds. -/
def uploadLoop (k : FileKind) (probe : Nat → Except String UploadObs) :
    Nat → Nat → Option (Bool × Nat)
  | _, 0 => none
  | i, n + 1 =>
    match probe i with
    | .error _ => uploadLoop k probe (i + 1) n
    | .ok o =>
      if o.successShown then some (true, i * uploadCheckInterval k)
      else if o.errorShown then some (false, i * uploadCheckInterval k)
      else if (k == FileKind.video) && o.videoCompleteShown then
        some (true, i * uploadCheckInterval k)
      else uploadLoop k probe (i + 1) n

/-- `XHSFileUploader._wait_for_upload_completion`
(src/xiaohongshu/components/file_uploader.py lines 187-262): run the polling
loop up to the kind-specific ceiling; when the ceiling elapses, a last check
returns success iff no error marker is displayed (and failure when that
last probe itself raises). Returns the result together with the elapsed
wait in seconds. -/
def wait_for_upload_completion (k : FileKind)
    (probe : Nat → Except String UploadObs)
    (finalErrCheck : Except String Bool) : Bool × Nat :=
  match uploadLoop k probe 0 (uploadLoopIters k) with
  | some r => r
  | none =>
    match finalErrCheck with
    | .ok errShown => (!errShown, uploadMaxWait k)
    | .error _ => (false, uploadMaxWait k)

/-- Python's substring operator `needle in hay` on character lists. -/
def listContainsSub : List Char → List Char → Bool
  | needle, [] => needle.isEmpty
  | needle, c :: rest => needle.isPrefixOf (c :: rest) || listContainsSub needle rest

/-- Python's substring operator on strings (`a in b`). -/
def pyIn (needle hay : String) : Bool := listContainsSub needle.toList hay.toList

/-- The read-back verification of `XHSContentFiller._perform_title_fill`
(src/xiaohongshu/components/content_filler.py lines 242-275):
`if cleaned_title in current_value or len(current_value) > 0`. -/
def titleFillVerified (cleaned_title current_value : String) : Bool :=
  pyIn cleaned_title current_value || decide (0 < current_value.length)

/-- The read-back verification of `XHSContentFiller._perform_content_fill`
(src/xiaohongshu/components/content_filler.py lines 277-329):
`len(current_text) > 0 and (cleaned_content[:20] in current_text or
len(current_text) >= len(cleaned_content) * 0.8)`; the 0.8 float threshold
is modelled as the exact rational comparison `5*len ≥ 4*len`. -/
def contentFillVerified (cleaned_content current_text : String) : Bool :=
  decide (0 < current_text.length) &&
    (pyIn (cleaned_content.take 20) current_text ||
     decide (4 * cleaned_content.length ≤ 5 * current_text.length))

/-- Modelled from the spec (spec §4.5 item d), for comparison with the
source's read-back rule: the write counts as verified only on an exact
match, a prefix match (in either direction), or a read-back length of at
least 80% of the expected length. -/
def specReadBackVerified (expected readBack : String) : Bool :=
  decide (readBack = expected) ||
  readBack.toList.isPrefixOf expected.toList ||
  expected.toList.isPrefixOf readBack.toList ||
  decide (4 * expected.length ≤ 5 * readBack.length)

/-- `XHSConfig.MAX_TOPICS` (src/xiaohongshu/constants.py line 59). -/
def MAX_TOPICS : Nat := 10

/-- `XHSConfig.MAX_TOPIC_LENGTH` (src/xiaohongshu/constants.py line 60). -/
def MAX_TOPIC_LENGTH : Nat := 20

/-- Environment of one `_perform_topics_automation` run
(src/xiaohongshu/components/content_filler.py lines 331-413): whether the
content editor was found, and per topic index the outcome of that topic's
`try` block — `Except.error` when it raised (caught per topic, loop
continues), otherwise the pair (realistic-input succeeded,
mention-conversion verified). -/
structure TopicsEnv where
  editorFound : Bool
  perTopic : Nat → Except String (Bool × Bool)

/-- The `success_count` accumulated by `_perform_topics_automation`: a topic
counts only when its input step succeeded and its conversion verified. -/
def topicSuccessCount (topics : List String) (env : TopicsEnv) : Nat :=
  (List.range topics.length).countP (fun i =>
    match env.perTopic i with
    | .ok (true, true) => true
    | _ => false)

/-- `XHSContentFiller._perform_topics_automation`
(src/xiaohongshu/components/content_filler.py lines 331-413): fails when the
editor is missing, otherwise reports success iff at least one topic
converted; per-topic failures (including exceptions) only lower the
count. -/
def perform_topics_automation (topics : List String) (env : TopicsEnv) : Bool :=
  if env.editorFound = false then false
  else decide (0 < topicSuccessCount topics env)

/-- `XHSContentFiller.fill_topics`
(src/xiaohongshu/components/content_filler.py lines 100-127): validates the
topic list, then runs the automation; every exception (including validation
errors) is caught and turned into `False` — the function always returns a
boolean and never raises ("话题填写失败不影响主流程"). -/
def fill_topics (topics : List String) (env : TopicsEnv) : Bool :=
  if MAX_TOPICS < topics.length then false
  else if topics.any (fun t => MAX_TOPIC_LENGTH < t.length) then false
  else perform_topics_automation topics env

/-- Outcomes of the title and body fills as seen by
`XHSPublisher._fill_note_content`: `fill_title` / `fill_content` either
raise (`Except.error`) or return a boolean. -/
structure FillEnv where
  fill_title : Except String Bool
  fill_content : Except String Bool
  deriving DecidableEq

/-- `XHSPublisher._fill_note_content`
(src/xiaohongshu/components/publisher.py lines 214-238): a false or raising
title/content fill raises `PublishError`; the topics result is computed when
topics are present but only logged — it never makes the stage fail. -/
def publisher_fill_note_content (fe : FillEnv) (topics : List String)
    (te : TopicsEnv) : Except String Unit :=
  match fe.fill_title with
  | .error e => .error e
  | .ok false => .error "标题填写失败"
  | .ok true =>
    match fe.fill_content with
    | .error e => .error e
    | .ok false => .error "内容填写失败"
    | .ok true =>
      let topicsResult := if topics.isEmpty then true else fill_topics topics te
      .ok ()

/-- Progress arguments supplied along a sequence of `update_task` calls
(every pipeline update supplies one). -/
def progressValues (us : List UpdateCall) : List Nat :=
  us.filterMap (fun u => u.progress)

/-- Whether some update of the sequence enters the named status. -/
def hasStatus (us : List UpdateCall) (s : String) : Bool :=
  us.any (fun u => u.status == some s)

/-- A text-only note (no media). -/
def noteTextOnly : XHSNote := ⟨"标题", "内容", [], [], []⟩

/-- A note carrying one image. -/
def noteWithImage : XHSNote := ⟨"标题", "内容", ["photo.jpg"], [], []⟩

/-- A note carrying one video. -/
def noteWithVideo : XHSNote := ⟨"标题", "内容", [], ["clip.mp4"], []⟩

/-- A pipeline environment in which every operation succeeds for an
image note. -/
def allOkEnv : PipelineEnv where
  taskFound := true
  note := noteWithImage
  cookies_file_exists := .ok true
  cookieRecordCount := 3
  create_driver := .ok ()
  navigate_to_creator_center := .ok ()
  load_cookies := .ok ()
  page_get := .ok ()
  urlHasPublish := true
  switch_publish_mode := .ok ()
  handle_file_upload := .ok ()
  wait_for_video_upload := .ok ()
  fill_note_content := .ok ()
  submit_note := .ok ⟨true, "笔记发布成功", [("success", .bool true)]⟩

/-- A sample stored job used to instantiate the `TaskManager` theorems. -/
def sampleTask : PublishTask :=
  { task_id := "t1", status := "uploading", note := noteWithImage,
    progress := 50, message := "正在上传文件...", result := none,
    start_time := 3, end_time := none }

/-- A tick on which the page has reached the creator center (authenticated
target area) and every probe succeeds. -/
def authTick : LoginTick :=
  ⟨.ok "https://creator.xiaohongshu.com/home", .ok false, .ok true,
   .ok "https://creator.xiaohongshu.com/home", .ok false⟩

/-- A tick on which reading the page URL raises. -/
def urlErrTick : LoginTick :=
  ⟨.error "session crashed", .ok false, .ok false, .ok "", .ok false⟩

/-- A probe outcome that would not end the polling loop early: either the
probe raised, or it saw neither a success marker, an error marker, nor a
video-complete marker. -/
def noTerminalMarker : Except String UploadObs → Bool
  | .error _ => true
  | .ok o => !o.successShown && !o.errorShown && !o.videoCompleteShown

theorem setTask_self (ts : TaskStore) (task_id : String) (t : PublishTask)
    (h : get_task ts task_id = some t) : setTask ts task_id t = ts := by
  induction ts with
  | nil => simp [get_task] at h
  | cons kt rest ih =>
      obtain ⟨k, t'⟩ := kt
      by_cases hk : k = task_id
      · subst hk
        simp [get_task] at h
        simp [setTask, h]
      · simp [get_task, hk] at h
        simp [setTask, hk, ih h]

theorem get_setTask_same (ts : TaskStore) (task_id : String) (t : PublishTask)
    (h : (get_task ts task_id).isSome) :
    get_task (setTask ts task_id t) task_id = some t := by
  induction ts with
  | nil => simp [get_task] at h
  | cons kt rest ih =>
      obtain ⟨k, t'⟩ := kt
      by_cases hk : k = task_id
      · subst hk; simp [setTask, get_task]
      · simp [get_task, hk] at h
        simp [setTask, get_task, hk, ih h]

theorem get_setTask_other (ts : TaskStore) (task_id j : String) (t : PublishTask)
    (h : j ≠ task_id) : get_task (setTask ts task_id t) j = get_task ts j := by
  induction ts with
  | nil => simp [setTask]
  | cons kt rest ih =>
      obtain ⟨k, t'⟩ := kt
      by_cases hk : k = task_id
      · subst hk
        have hkj : ¬ (k = j) := fun hh => h hh.symm
        simp [setTask, get_task, hkj]
      · simp [setTask, get_task, hk]
        by_cases hkj : k = j
        · simp [hkj]
        · simp [hkj, ih]

theorem applyUpdate_keeps_identity (t : PublishTask) (st : Option String)
    (pr : Option Nat) (ms : Option String) (rs : Option Rdict) (now : Nat) :
    (applyUpdate t st pr ms rs now).start_time = t.start_time ∧
    (applyUpdate t st pr ms rs now).note = t.note ∧
    (applyUpdate t st pr ms rs now).task_id = t.task_id := by
  rcases st with _ | s <;> rcases pr with _ | p <;> rcases ms with _ | m <;>
    rcases rs with _ | r <;> simp only [applyUpdate] <;> split_ifs <;> simp_all

theorem applyUpdate_status_none (t : PublishTask) (pr : Option Nat)
    (ms : Option String) (rs : Option Rdict) (now : Nat) :
    (applyUpdate t none pr ms rs now).status = t.status ∧
    (applyUpdate t none pr ms rs now).end_time = t.end_time := by
  rcases pr with _ | p <;> rcases ms with _ | m <;> rcases rs with _ | r <;>
    simp only [applyUpdate] <;> split_ifs <;> simp_all

theorem applyUpdate_progress_none (t : PublishTask) (st : Option String)
    (ms : Option String) (rs : Option Rdict) (now : Nat) :
    (applyUpdate t st none ms rs now).progress = t.progress := by
  rcases st with _ | s <;> rcases ms with _ | m <;> rcases rs with _ | r <;>
    simp only [applyUpdate] <;> split_ifs <;> simp_all

theorem applyUpdate_message_none (t : PublishTask) (st : Option String)
    (pr : Option Nat) (rs : Option Rdict) (now : Nat) :
    (applyUpdate t st pr none rs now).message = t.message := by
  rcases st with _ | s <;> rcases pr with _ | p <;> rcases rs with _ | r <;>
    simp only [applyUpdate] <;> split_ifs <;> simp_all

theorem applyUpdate_result_none (t : PublishTask) (st : Option String)
    (pr : Option Nat) (ms : Option String) (now : Nat) :
    (applyUpdate t st pr ms none now).result = t.result := by
  rcases st with _ | s <;> rcases pr with _ | p <;> rcases ms with _ | m <;>
    simp only [applyUpdate] <;> split_ifs <;> simp_all

/-- C9: a progress-only `update_task` changes at most the stored job's
progress field — status, message, result, start timestamp and end timestamp
are all unchanged (first conjunct, an exact description of the new store);
more generally any omitted field of a partial update is left unchanged
(second conjunct); and an update for an unknown id is a no-op (third
conjunct). -/
theorem update_task_frame (ts : TaskStore) (tid : String) (now : Nat) :
    (∀ p, update_task ts tid none (some p) none none now
        = (match get_task ts tid with
           | none => ts
           | some t => setTask ts tid { t with progress := p })) ∧
    (∀ st pr ms rs t, get_task ts tid = some t →
       ∃ t', get_task (update_task ts tid st pr ms rs now) tid = some t' ∧
         t'.start_time = t.start_time ∧ t'.note = t.note ∧
         t'.task_id = t.task_id ∧
         (st = none → t'.status = t.status ∧ t'.end_time = t.end_time) ∧
         (pr = none → t'.progress = t.progress) ∧
         (ms = none → t'.message = t.message) ∧
         (rs = none → t'.result = t.result)) ∧
    (get_task ts tid = none →
       ∀ st pr ms rs, update_task ts tid st pr ms rs now = ts) := by
  refine ⟨?_, ?_, ?_⟩
  · intro p
    cases h : get_task ts tid with
    | none => simp [update_task, h]
    | some t => simp [update_task, h, applyUpdate]
  · intro st pr ms rs t h
    refine ⟨applyUpdate t st pr ms rs now, ?_, ?_⟩
    · simp [update_task, h]
      exact get_setTask_same ts tid _ (by simp [h])
    · refine ⟨(applyUpdate_keeps_identity t st pr ms rs now).1,
        (applyUpdate_keeps_identity t st pr ms rs now).2.1,
        (applyUpdate_keeps_identity t st pr ms rs now).2.2, ?_, ?_, ?_, ?_⟩
      · rintro rfl; exact applyUpdate_status_none t pr ms rs now
      · rintro rfl; exact applyUpdate_progress_none t st ms rs now
      · rintro rfl; exact applyUpdate_message_none t st pr rs now
      · rintro rfl; exact applyUpdate_result_none t st pr ms now
  · intro h st pr ms rs
    simp [update_task, h]

/-- Witness for C9: the frame theorem applied to a concrete one-job store. -/
theorem update_task_frame_witness :
    update_task [("t1", sampleTask)] "t1" none (some 55) none none 7
      = [("t1", { sampleTask with progress := 55 })] := by
  have h := (update_task_frame [("t1", sampleTask)] "t1" 7).1 55
  rw [h]
  decide

/-- C10: `update_task` treats falsy values as omitted for status, message
and result but not for progress — an empty-string status, empty-string
message or empty-dict result leaves the store entirely unchanged (and stamps
no end timestamp), while a progress of 0 does set the stored progress
to 0. -/
theorem update_task_truthiness (ts : TaskStore) (tid : String)
    (t : PublishTask) (now : Nat) (h : get_task ts tid = some t) :
    update_task ts tid (some "") none none none now = ts ∧
    update_task ts tid none none (some "") none now = ts ∧
    update_task ts tid none none none (some []) now = ts ∧
    get_task (update_task ts tid none (some 0) none none now) tid
      = some { t with progress := 0 } := by
  refine ⟨?_, ?_, ?_, ?_⟩
  · have : applyUpdate t (some "") none none none now = t := by
      simp [applyUpdate]
    simp [update_task, h, this, setTask_self ts tid t h]
  · have : applyUpdate t none none (some "") none now = t := by
      simp [applyUpdate]
    simp [update_task, h, this, setTask_self ts tid t h]
  · have : applyUpdate t none none none (some []) now = t := by
      simp [applyUpdate]
    simp [update_task, h, this, setTask_self ts tid t h]
  · have : applyUpdate t none (some 0) none none now = { t with progress := 0 } := by
      simp [applyUpdate]
    simp [update_task, h, this]
    exact get_setTask_same ts tid _ (by simp [h])

/-- Witness for C10: the truthiness theorem applied to a concrete store. -/
theorem update_task_truthiness_witness :
    update_task [("t1", sampleTask)] "t1" (some "") none none none 9
      = [("t1", sampleTask)] ∧
    get_task (update_task [("t1", sampleTask)] "t1" none (some 0) none none 9) "t1"
      = some { sampleTask with progress := 0 } := by
  have h := update_task_truthiness [("t1", sampleTask)] "t1" sampleTask 9 (by decide)
  exact ⟨h.1, h.2.2.2⟩

theorem mem_foundCriticalNames (cs : List Cookie) (n : String) :
    n ∈ foundCriticalNames cs ↔
      ∃ c ∈ cs, c.name ∈ CRITICAL_CREATOR_COOKIES ∧ c.name = n := by
  simp [foundCriticalNames, List.mem_map, List.mem_filter]
  tauto

theorem expiredCritical_nil_iff (cs : List Cookie) (now : Nat) :
    (expiredCriticalCookies cs now).length = 0 ↔
      ∀ c ∈ cs, c.name ∈ CRITICAL_CREATOR_COOKIES → cookieExpired c now = false := by
  simp [expiredCriticalCookies, List.length_eq_zero, List.map_eq_nil_iff,
    List.filter_eq_nil_iff, List.mem_filter]

theorem missingMustHave_count (cs : List Cookie) :
    (missingMustHave cs).length
      = must_have_cookies.countP (fun n => decide (∀ c ∈ cs, c.name ≠ n)) := by
  rw [List.countP_eq_length_filter]
  unfold missingMustHave
  congr 1
  apply List.filter_congr
  intro n hn
  have hsub : ∀ m ∈ must_have_cookies, m ∈ CRITICAL_CREATOR_COOKIES := by decide
  have hcrit : n ∈ CRITICAL_CREATOR_COOKIES := hsub n hn
  simp only [decide_eq_decide, mem_foundCriticalNames]
  constructor
  · intro h c hc hname
    exact h ⟨c, hc, hname ▸ hcrit, hname⟩
  · rintro h ⟨c, hc, _, hname⟩
    exact h c hc hname

/-- C4 (amended): the verdict of `validate_cookies` is tiered over two
different fixed lists — it is valid iff no record named in the nine-name
`CRITICAL_CREATOR_COOKIES` list is past its (non-zero) expiry AND at most
two of the five `must_have_cookies` names are absent; the expiry gate and
the absence tolerance do not use the same required subset. -/
theorem validate_cookies_policy (cs : List Cookie) (now : Nat) :
    validate_cookies cs now = true ↔
      ((∀ c ∈ cs, c.name ∈ CRITICAL_CREATOR_COOKIES → cookieExpired c now = false) ∧
       must_have_cookies.countP (fun n => decide (∀ c ∈ cs, c.name ≠ n)) ≤ 2) := by
  unfold validate_cookies
  rw [Bool.and_eq_true, decide_eq_true_iff, decide_eq_true_iff,
    expiredCritical_nil_iff, missingMustHave_count]

/-- Witness for C4: a fresh credential set holding exactly the five
must-have names is accepted by the amended policy. -/
theorem validate_cookies_policy_witness :
    validate_cookies (must_have_cookies.map (fun n => ⟨n, none⟩)) 1000 = true := by
  exact (validate_cookies_policy (must_have_cookies.map (fun n => ⟨n, none⟩)) 1000).2
    (by constructor <;> decide)

/-- Counterexample for C4 as stated: a credential set holding exactly the
five must-have names (all fresh) is missing four of the nine names of the
cited required subset `CRITICAL_CREATOR_COOKIES` — more than the stated
tolerance of two — yet `validate_cookies` reports it valid, so "a set
missing three or more required names is not valid" fails on the code. -/
theorem validate_cookies_cex :
    validate_cookies (must_have_cookies.map (fun n => ⟨n, none⟩)) 1000 = true ∧
    2 < (CRITICAL_CREATOR_COOKIES.filter
          (fun n => (must_have_cookies.map (fun m => (⟨m, none⟩ : Cookie))).all
            (fun c => c.name ≠ n))).length := by
  decide

/-- C5 (amended): in `_wait_for_login_completion`, an exception while
reading the page URL, or while running the creator-center check, ends the
detection immediately with failure (first and second conjuncts) — there is
no three-consecutive-failures tolerance; only exceptions of the login-page
check and of the error-page check are transient: the tick is skipped and
polling continues (third and fourth conjuncts); an exhausted tick budget is
the timeout failure (fifth conjunct). -/
theorem login_wait_exception_policy (t : LoginTick) (rest : List LoginTick) :
    (∀ e, t.current_url = .error e →
       wait_for_login_completion (t :: rest) = false) ∧
    (∀ u e, t.current_url = .ok u → t.still_on_login_page ≠ .ok true →
       t.on_creator_center = .error e →
       wait_for_login_completion (t :: rest) = false) ∧
    (∀ u e, t.current_url = .ok u → t.still_on_login_page = .error e →
       t.on_creator_center = .ok false → t.is_error_page = .ok false →
       wait_for_login_completion (t :: rest) = wait_for_login_completion rest) ∧
    (∀ u e, t.current_url = .ok u → t.still_on_login_page = .ok false →
       t.on_creator_center = .ok false → t.is_error_page = .error e →
       wait_for_login_completion (t :: rest) = wait_for_login_completion rest) ∧
    wait_for_login_completion [] = false := by
  refine ⟨?_, ?_, ?_, ?_, rfl⟩
  · intro e he
    simp [wait_for_login_completion, he]
  · intro u e hu hs hc
    rcases hstill : t.still_on_login_page with es | b
    · simp [wait_for_login_completion, hu, hstill, hc]
    · cases b
      · simp [wait_for_login_completion, hu, hstill, hc]
      · exact absurd hstill hs
  · intro u e hu hs hc herr
    simp [wait_for_login_completion, hu, hs, hc, herr]
  · intro u e hu hs hc herr
    simp [wait_for_login_completion, hu, hs, hc, herr]

/-- Witness for C5: the exception policy applied to concrete ticks: a
URL-read exception on the very first tick terminates the wait with failure,
and a transient login-page-check exception lets polling continue to an
authenticated tick. -/
theorem login_wait_exception_policy_witness :
    wait_for_login_completion [urlErrTick] = false ∧
    wait_for_login_completion
      [⟨.ok "https://www.xiaohongshu.com/login", .error "stale element",
        .ok false, .ok "", .ok false⟩, authTick] = true := by
  constructor
  · exact (login_wait_exception_policy urlErrTick []).1 "session crashed" rfl
  · rw [(login_wait_exception_policy
      ⟨.ok "https://www.xiaohongshu.com/login", .error "stale element",
       .ok false, .ok "", .ok false⟩ [authTick]).2.2.1
      "https://www.xiaohongshu.com/login" "stale element" rfl rfl rfl rfl]
    decide

/-- Counterexample for C5 as stated: a single probe exception (a URL read
that raises on the first tick) makes the detector return failure at once,
although the very next tick would have been detected as authenticated — so
an exception is not treated as a transient probe failure after which
polling continues, and no three-consecutive-failures rule exists. -/
theorem login_wait_cex :
    wait_for_login_completion [urlErrTick, authTick] = false ∧
    wait_for_login_completion [authTick] = true := by
  decide

theorem uploadLoop_none (k : FileKind) (probe : Nat → Except String UploadObs) :
    ∀ n i, (∀ j, i ≤ j → j < i + n → noTerminalMarker (probe j) = true) →
      uploadLoop k probe i n = none := by
  intro n
  induction n with
  | zero => intro i _; rfl
  | succ m ih =>
      intro i h
      have h0 : noTerminalMarker (probe i) = true := h i le_rfl (by omega)
      unfold uploadLoop
      cases hp : probe i with
      | error e => exact ih (i + 1) (fun j hj1 hj2 => h j (by omega) (by omega))
      | ok o =>
          obtain ⟨s, er, vc, vp⟩ := o
          rw [hp] at h0
          simp [noTerminalMarker] at h0
          obtain ⟨⟨hs, he⟩, hc⟩ := h0
          subst hs; subst he; subst hc
          simp
          exact ih (i + 1) (fun j hj1 hj2 => h j (by omega) (by omega))

/-- C6: when the kind-specific ceiling elapses with no terminal marker ever
observed (in particular no displayed error marker), the coordinator
optimistically returns success, and the elapsed wait is exactly the
kind-specific ceiling: `VIDEO_PROCESSING_TIME` (120s) for video uploads,
`FILE_UPLOAD_TIME` (60s) for image uploads — the video ceiling being
strictly longer, a video upload in this situation returns success only
after 120 seconds, not after the 60-second image ceiling. -/
theorem upload_optimistic_fallback (k : FileKind)
    (probe : Nat → Except String UploadObs)
    (h : ∀ j, j < uploadLoopIters k → noTerminalMarker (probe j) = true) :
    wait_for_upload_completion k probe (.ok false) = (true, uploadMaxWait k) ∧
    uploadMaxWait .video = VIDEO_PROCESSING_TIME ∧
    uploadMaxWait .image = FILE_UPLOAD_TIME ∧
    uploadMaxWait .image < uploadMaxWait .video := by
  refine ⟨?_, rfl, rfl, by decide⟩
  unfold wait_for_upload_completion
  rw [uploadLoop_none k probe (uploadLoopIters k) 0
    (fun j _ hj2 => h j (by omega))]
  rfl

/-- Witness for C6: the optimistic fallback evaluated on probes that never
show any marker (the video one showing only the processing indicator):
success after 120 seconds for video, success after 60 seconds for image. -/
theorem upload_optimistic_fallback_witness :
    wait_for_upload_completion .video
      (fun _ => .ok ⟨false, false, false, true⟩) (.ok false) = (true, 120) ∧
    wait_for_upload_completion .image
      (fun _ => .ok ⟨false, false, false, false⟩) (.ok false) = (true, 60) := by
  constructor
  · have h := (upload_optimistic_fallback .video
      (fun _ => .ok ⟨false, false, false, true⟩) (fun j _ => rfl)).1
    simpa using h
  · have h := (upload_optimistic_fallback .image
      (fun _ => .ok ⟨false, false, false, false⟩) (fun j _ => rfl)).1
    simpa using h

theorem listContainsSub_nil_needle (hay : List Char) :
    listContainsSub [] hay = true := by
  cases hay <;> simp [listContainsSub, List.isPrefixOf]

/-- C7 (amended): the title fill reports the write as verified exactly when
the read-back value is nonempty (or the expected text is empty — any
nonempty read-back passes, with no prefix or length-ratio requirement); the
body fill reports the write as verified exactly when the read-back is
nonempty and either contains the first 20 characters of the expected text
as a substring or has length at least 80% of the expected length. -/
theorem fill_verify_policy (expected readBack : String) :
    (titleFillVerified expected readBack = true ↔
       (0 < readBack.length ∨ expected.length = 0)) ∧
    (contentFillVerified expected readBack = true ↔
       (0 < readBack.length ∧ (pyIn (expected.take 20) readBack = true ∨
          4 * expected.length ≤ 5 * readBack.length))) := by
  constructor
  · simp only [titleFillVerified, Bool.or_eq_true, decide_eq_true_iff]
    constructor
    · rintro (hin | hlen)
      · by_cases hr : 0 < readBack.length
        · exact Or.inl hr
        · have hr0 : readBack.length = 0 := by omega
          have hrl : readBack.toList = [] := by
            have h1 : readBack.toList.length = 0 := hr0
            exact List.length_eq_zero.mp h1
          right
          rw [pyIn, hrl] at hin
          cases hl : expected.toList with
          | nil => simpa using congrArg List.length hl
          | cons c t =>
              rw [hl] at hin
              simp [listContainsSub] at hin
      · exact Or.inl hlen
    · rintro (hlen | hempty)
      · exact Or.inr hlen
      · left
        have hel : expected.toList = [] := by
          have h1 : expected.toList.length = 0 := hempty
          exact List.length_eq_zero.mp h1
        rw [pyIn, hel]
        exact listContainsSub_nil_needle _
  · simp only [contentFillVerified, Bool.and_eq_true, Bool.or_eq_true,
      decide_eq_true_iff]

/-- Witness for C7: the amended rule applied to a concrete fill — a one
character read-back of an eleven character title is reported as verified. -/
theorem fill_verify_policy_witness :
    titleFillVerified "hello world" "x" = true :=
  (fill_verify_policy "hello world" "x").1.2 (Or.inl (by decide))

/-- Counterexample for C7 as stated: for expected title "hello world" the
read-back "x" is not an exact match, not a prefix match in either
direction, and its length (1) is far below 80% of the expected length (11),
yet `_perform_title_fill` reports the write as verified. -/
theorem fill_verify_cex :
    titleFillVerified "hello world" "x" = true ∧
    specReadBackVerified "hello world" "x" = false := by
  decide

/-- C8: total topic failure does not abort a publish job — when zero topics
verify, `fill_topics` still returns an ordinary `False` and never raises
(first conjunct), the content-fill stage of the publisher still reports
success when title and body fills succeed (second conjunct), and the MCP
pipeline still proceeds to the submitting stage whenever the content-fill
operation reports success (third conjunct). -/
theorem topics_nonfatal (topics : List String) (te : TopicsEnv) (fe : FillEnv)
    (ht : fe.fill_title = .ok true) (hc : fe.fill_content = .ok true)
    (hz : topicSuccessCount topics te = 0) :
    fill_topics topics te = false ∧
    publisher_fill_note_content fe topics te = .ok () ∧
    (∀ env : PipelineEnv, env.taskFound = true →
       env.cookies_file_exists = .ok true → env.create_driver = .ok () →
       env.navigate_to_creator_center = .ok () → env.load_cookies = .ok () →
       env.page_get = .ok () → env.urlHasPublish = true →
       env.fill_note_content = .ok () →
       hasStatus (executePublishTask env).updates "publishing" = true) := by
  refine ⟨?_, ?_, ?_⟩
  · simp [fill_topics, perform_topics_automation, hz]
  · simp [publisher_fill_note_content, ht, hc]
  · intro env h1 h2 h3 h4 h5 h6 h7 h8
    cases hub : (env.note.images.isEmpty && env.note.videos.isEmpty) <;>
      cases hfu : env.handle_file_upload <;>
      cases hv : env.note.videos.isEmpty <;>
      rcases hsub : env.submit_note with e | r <;>
      simp [executePublishTask, h1, h2, h3, h4, h5, h6, h7, h8, hub, hfu, hv,
        hsub, hasStatus, stageUpd, failUpd, updValidating, updInit10, updInit15,
        updBrowser20, updNavigating25, updLoading30, updAccess35, updSwitch40,
        updUploading50, updWaitImg60, updWaitVid60, updFilling70,
        updPublishing80, updCompleted, submitFailUpd] <;>
      (try split_ifs) <;> (try simp)

/-- Witness for C8: a concrete run in which both topics fail to verify —
`fill_topics` returns `False` without raising and the content-fill stage
still succeeds. -/
theorem topics_nonfatal_witness :
    fill_topics ["旅行", "美食"] ⟨true, fun _ => .ok (true, false)⟩ = false ∧
    publisher_fill_note_content ⟨.ok true, .ok true⟩ ["旅行", "美食"]
      ⟨true, fun _ => .ok (true, false)⟩ = .ok () := by
  have h := topics_nonfatal ["旅行", "美食"] ⟨true, fun _ => .ok (true, false)⟩
    ⟨.ok true, .ok true⟩ rfl rfl (by decide)
  exact ⟨h.1, h.2.1⟩

/-- C1 (amended): along every pipeline execution, the progress values pushed
through `update_task` are non-decreasing from each update to the next,
except that a transition into the terminal `failed` status resets progress
to 0 — the success ladder 5, 10, …, 80, 100 never decreases, and every
decrease is a failure update carrying progress 0. -/
theorem progress_monotone_except_failure_reset (env : PipelineEnv) :
    List.Chain' (fun u v => u.progress.getD 0 ≤ v.progress.getD 0 ∨
      (v.status = some "failed" ∧ v.progress = some 0))
      (executePublishTask env).updates := by
  unfold executePublishTask
  repeat' split
  all_goals
    simp [updValidating, updInit10, updInit15, updBrowser20, updNavigating25,
      updLoading30, updAccess35, updSwitch40, updUploading50, updWaitImg60,
      updWaitVid60, updFilling70, updPublishing80, updCompleted, stageUpd,
      failUpd, validationFailUpd, authFailUpd, browserFailUpd, pageFailUpd,
      contentFailUpd, submitFailUpd, List.chain'_cons, List.chain'_singleton]

/-- Counterexample for C1 as stated: when the content-fill stage fails, the
pipeline's failure update stores progress 0 after having stored 70, so the
stored progress sequence of this job is not non-decreasing. -/
theorem progress_monotone_cex :
    progressValues (executePublishTask { allOkEnv with
      fill_note_content := .error "标题输入框未找到" }).updates
      = [5, 10, 15, 20, 25, 30, 35, 40, 50, 60, 70, 0] ∧
    ¬ List.Chain' (fun a b : Nat => a ≤ b)
      (progressValues (executePublishTask { allOkEnv with
        fill_note_content := .error "标题输入框未找到" }).updates) := by
  have h1 : progressValues (executePublishTask { allOkEnv with
      fill_note_content := .error "标题输入框未找到" }).updates
      = [5, 10, 15, 20, 25, 30, 35, 40, 50, 60, 70, 0] := by decide
  refine ⟨h1, ?_⟩
  rw [h1]
  simp [List.chain'_cons, List.chain'_singleton]

/-- C2 (amended): failures of the validation, browser-initialization,
page-access, content-fill and submit stages each transition the job
directly to `failed` with that stage's structured error and run no later
stage (a submit that raises ends the run with the structured submit error,
and a submit reporting success=false likewise ends the run failed, never
completed); but failures of the mode-switch stage and of the
file-upload/await-upload block are caught and logged and the pipeline
continues — the mode-switch and await-video-upload outcomes have no effect
on the run at all, and a failed file upload still reaches the content-fill
stage. -/
theorem stage_failure_policy (env : PipelineEnv) :
    (∀ e, env.taskFound = true → env.cookies_file_exists = .error e →
       executePublishTask env = ⟨[updValidating, validationFailUpd e], false⟩) ∧
    (∀ e, env.taskFound = true → env.cookies_file_exists = .ok true →
       env.create_driver = .error e →
       executePublishTask env =
         ⟨[updValidating, updInit10, updInit15, updBrowser20,
           browserFailUpd e], true⟩) ∧
    (∀ e, env.taskFound = true → env.cookies_file_exists = .ok true →
       env.create_driver = .ok () → env.navigate_to_creator_center = .ok () →
       env.load_cookies = .ok () → env.page_get = .error e →
       executePublishTask env =
         ⟨[updValidating, updInit10, updInit15, updBrowser20, updNavigating25,
           updLoading30, updAccess35, pageFailUpd e], true⟩) ∧
    (∀ e, env.taskFound = true → env.cookies_file_exists = .ok true →
       env.create_driver = .ok () → env.navigate_to_creator_center = .ok () →
       env.load_cookies = .ok () → env.page_get = .ok () →
       env.urlHasPublish = true → env.fill_note_content = .error e →
       (executePublishTask env).updates.getLast? = some (contentFailUpd e) ∧
       hasStatus (executePublishTask env).updates "publishing" = false) ∧
    (∀ w w', executePublishTask
        { env with switch_publish_mode := w, wait_for_video_upload := w' }
        = executePublishTask env) ∧
    (∀ e, env.taskFound = true → env.cookies_file_exists = .ok true →
       env.create_driver = .ok () → env.navigate_to_creator_center = .ok () →
       env.load_cookies = .ok () → env.page_get = .ok () →
       env.urlHasPublish = true → env.handle_file_upload = .error e →
       hasStatus (executePublishTask env).updates "filling_content" = true) ∧
    (∀ e, env.taskFound = true → env.cookies_file_exists = .ok true →
       env.create_driver = .ok () → env.navigate_to_creator_center = .ok () →
       env.load_cookies = .ok () → env.page_get = .ok () →
       env.urlHasPublish = true → env.fill_note_content = .ok () →
       env.submit_note = .error e →
       (executePublishTask env).updates.getLast? = some (submitFailUpd e) ∧
       hasStatus (executePublishTask env).updates "completed" = false) ∧
    (∀ r, env.taskFound = true → env.cookies_file_exists = .ok true →
       env.create_driver = .ok () → env.navigate_to_creator_center = .ok () →
       env.load_cookies = .ok () → env.page_get = .ok () →
       env.urlHasPublish = true → env.fill_note_content = .ok () →
       env.submit_note = .ok r → r.success = false →
       (executePublishTask env).updates.getLast?
         = some (failUpd ("❌ 发布失败: " ++ r.message) r.dict) ∧
       hasStatus (executePublishTask env).updates "completed" = false) := by
  obtain ⟨tf, note, cfe, cnt, cd, nav, lc, pg, up, sm, fu, wv, fc, sb⟩ := env
  refine ⟨?_, ?_, ?_, ?_, ?_, ?_, ?_, ?_⟩
  · intro e h1 h2
    simp only at h1 h2
    subst h1; subst h2
    simp [executePublishTask]
  · intro e h1 h2 h3
    simp only at h1 h2 h3
    subst h1; subst h2; subst h3
    simp [executePublishTask]
  · intro e h1 h2 h3 h4 h5 h6
    simp only at h1 h2 h3 h4 h5 h6
    subst h1; subst h2; subst h3; subst h4; subst h5; subst h6
    simp [executePublishTask]
  · intro e h1 h2 h3 h4 h5 h6 h7 h8
    simp only at h1 h2 h3 h4 h5 h6 h7 h8
    subst h1; subst h2; subst h3; subst h4; subst h5; subst h6; subst h7
    subst h8
    cases hi : note.images.isEmpty <;> cases hv : note.videos.isEmpty <;>
      cases hfu : fu <;>
      simp [executePublishTask, hi, hfu, hv, hasStatus, stageUpd, failUpd,
        updValidating, updInit10, updInit15, updBrowser20, updNavigating25,
        updLoading30, updAccess35, updSwitch40, updUploading50, updWaitImg60,
        updWaitVid60, updFilling70, updPublishing80, contentFailUpd,
        List.getLast?_cons_cons, List.getLast?_singleton]
  · intro w w'
    rfl
  · intro e h1 h2 h3 h4 h5 h6 h7 h8
    simp only at h1 h2 h3 h4 h5 h6 h7 h8
    subst h1; subst h2; subst h3; subst h4; subst h5; subst h6; subst h7
    subst h8
    cases hi : note.images.isEmpty <;> cases hv : note.videos.isEmpty <;>
      rcases hfc : fc with e' | u <;> rcases hsb : sb with e'' | r <;>
      simp [executePublishTask, hi, hv, hfc, hsb, hasStatus, stageUpd, failUpd,
        updValidating, updInit10, updInit15, updBrowser20, updNavigating25,
        updLoading30, updAccess35, updSwitch40, updUploading50, updWaitImg60,
        updWaitVid60, updFilling70, updPublishing80, updCompleted,
        contentFailUpd, submitFailUpd] <;>
      (try split_ifs) <;> (try simp)
  · intro e h1 h2 h3 h4 h5 h6 h7 h8 h9
    simp only at h1 h2 h3 h4 h5 h6 h7 h8 h9
    subst h1; subst h2; subst h3; subst h4; subst h5; subst h6; subst h7
    subst h8; subst h9
    cases hi : note.images.isEmpty <;> cases hv : note.videos.isEmpty <;>
      cases hfu : fu <;>
      simp [executePublishTask, hi, hfu, hv, hasStatus, stageUpd, failUpd,
        updValidating, updInit10, updInit15, updBrowser20, updNavigating25,
        updLoading30, updAccess35, updSwitch40, updUploading50, updWaitImg60,
        updWaitVid60, updFilling70, updPublishing80, submitFailUpd,
        List.getLast?_cons_cons, List.getLast?_singleton]
  · intro r h1 h2 h3 h4 h5 h6 h7 h8 h9 h10
    simp only at h1 h2 h3 h4 h5 h6 h7 h8 h9
    subst h1; subst h2; subst h3; subst h4; subst h5; subst h6; subst h7
    subst h8; subst h9
    cases hi : note.images.isEmpty <;> cases hv : note.videos.isEmpty <;>
      cases hfu : fu <;>
      simp [executePublishTask, hi, hfu, hv, h10, hasStatus, stageUpd, failUpd,
        updValidating, updInit10, updInit15, updBrowser20, updNavigating25,
        updLoading30, updAccess35, updSwitch40, updUploading50, updWaitImg60,
        updWaitVid60, updFilling70, updPublishing80, updCompleted,
        List.getLast?_cons_cons, List.getLast?_singleton]

/-- Witness for C2: the fatal-stage half applied to a concrete run whose
driver creation raises — the job fails at browser initialization and no
later stage update is issued. -/
theorem stage_failure_policy_witness :
    executePublishTask { allOkEnv with create_driver := .error "chromedriver 未安装" }
      = ⟨[updValidating, updInit10, updInit15, updBrowser20,
          browserFailUpd "chromedriver 未安装"], true⟩ :=
  (stage_failure_policy { allOkEnv with
    create_driver := .error "chromedriver 未安装" }).2.1 "chromedriver 未安装" rfl rfl rfl

/-- Counterexample for C2 as stated: a run whose mode-switch operation
raises does not transition to `failed` — the pipeline continues through the
upload, content and submit stages and the job completes. -/
theorem stage_failure_cex :
    (executePublishTask { allOkEnv with
       switch_publish_mode := .error "未找到图文选项卡" }).updates
      = [updValidating, updInit10, updInit15, updBrowser20, updNavigating25,
         updLoading30, updAccess35, updSwitch40, updUploading50, updWaitImg60,
         updFilling70, updPublishing80, updCompleted [("success", RVal.bool true)]] ∧
    hasStatus (executePublishTask { allOkEnv with
       switch_publish_mode := .error "未找到图文选项卡" }).updates "failed" = false := by
  decide

/-- C3 (amended): a job started while the cookies file is missing fails at
the validation stage with a structured auth error — error_type
`auth_required` and a remediation hint telling the caller to log in again —
and the run never reaches the uploading stage and never starts a browser
session. (The pre-flight checks only that the file exists; see the
counterexample for an existing-but-empty credential set.) -/
theorem missing_credentials_fail_fast (env : PipelineEnv)
    (h1 : env.taskFound = true) (h2 : env.cookies_file_exists = .ok false) :
    executePublishTask env = ⟨[updValidating, authFailUpd], false⟩ ∧
    (∃ r, authFailUpd.result = some r ∧
       r.get "error_type" = some (.str "auth_required") ∧
       r.get "suggested_command" = some (.str "请对AI说：\x27登录小红书\x27")) ∧
    hasStatus (executePublishTask env).updates "uploading" = false ∧
    (executePublishTask env).driverCreateAttempted = false := by
  obtain ⟨tf, note, cfe, cnt, cd, nav, lc, pg, up, sm, fu, wv, fc, sb⟩ := env
  simp only at h1 h2
  subst h1; subst h2
  refine ⟨by simp [executePublishTask], ⟨_, rfl, by decide, by decide⟩, ?_, ?_⟩ <;>
    simp [executePublishTask, hasStatus, updValidating, authFailUpd, stageUpd,
      failUpd]

/-- Witness for C3: the fail-fast theorem applied to a concrete run with a
missing cookies file. -/
theorem missing_credentials_fail_fast_witness :
    executePublishTask { allOkEnv with cookies_file_exists := .ok false }
      = ⟨[updValidating, authFailUpd], false⟩ :=
  (missing_credentials_fail_fast
    { allOkEnv with cookies_file_exists := .ok false } rfl rfl).1

/-- Counterexample for C3 as stated: a credential file that exists but holds
zero records (an empty CredentialSet) passes the pre-flight — the pipeline
starts a browser session and, with every later operation succeeding, the
job completes with no auth failure. -/
theorem empty_credentials_cex :
    ({ allOkEnv with cookieRecordCount := 0 } : PipelineEnv).cookieRecordCount = 0 ∧
    (executePublishTask { allOkEnv with
       cookieRecordCount := 0 }).driverCreateAttempted = true ∧
    hasStatus (executePublishTask { allOkEnv with
       cookieRecordCount := 0 }).updates "failed" = false ∧
    (executePublishTask { allOkEnv with cookieRecordCount := 0 }).updates.getLast?
      = some (updCompleted [("success", RVal.bool true)]) := by
  decide
